import Mathlib

/-!
Shallow embedding of the HyperEnclave enclave thread-state transition engine
and exception fix-up policy (src/arch/x86_64/enclave.rs), together with the
surrounding data model. Machine words are `Nat` with explicit wrapping where
the source relies on fixed-width arithmetic. Components of the repository
that only exist behind trait or module boundaries not present in the sources
(the vcpu state-access trait, the SGX SSA record layout, the XSAVE helpers,
cpuid) are modelled from the specification and flagged as such.
-/

deriving instance DecidableEq for Except

/-- Word mask for 64-bit registers. -/
def mask64 : Nat := 2 ^ 64 - 1

/-- Modelled from the spec: page size used by `align_down` / `is_aligned`
(`crate::memory::PAGE_SIZE`, re-exported by src/consts.rs but defined outside
the provided sources). -/
def PAGE_SIZE : Nat := 4096

/-- Modelled from the spec: `align_down` from `crate::memory::addr` rounds an
address down to a page boundary. -/
def align_down (addr : Nat) : Nat := addr / PAGE_SIZE * PAGE_SIZE

/-- Exception vector number for #GP (src/arch/arm/exception.rs mirrors the
x86 vector numbering used by src/arch/x86_64/enclave.rs). -/
def ExceptionType.GeneralProtectionFault : Nat := 13

/-- Exception vector number for #PF. -/
def ExceptionType.PageFault : Nat := 14

/-- Exception vector number for #UD. -/
def ExceptionType.InvalidOpcode : Nat := 6

/-- Page-fault error-code bit: protection violation (bit 0). -/
def PageFaultErrorCode.PROTECTION_VIOLATION : Nat := 1

/-- Page-fault error-code bit: caused by write (bit 1). -/
def PageFaultErrorCode.CAUSED_BY_WRITE : Nat := 2

/-- Page-fault error-code bit: user mode (bit 2). -/
def PageFaultErrorCode.USER_MODE : Nat := 4

/-- Page-fault error-code bit: malformed table (bit 3). -/
def PageFaultErrorCode.MALFORMED_TABLE : Nat := 8

/-- Page-fault error-code bit: instruction fetch (bit 4). -/
def PageFaultErrorCode.INSTRUCTION_FETCH : Nat := 16

/-- Enclave-specific #PF error-code bit: EPCM attribute mismatch (bit 15). -/
def EnclavePFErrorCode.EPCM_ATTR_MISMATCH : Nat := 2 ^ 15

/-- Enclave-specific #PF error-code bit: shared-memory fetch (bit 31). -/
def EnclavePFErrorCode.SHARED_MEM_FETCH : Nat := 2 ^ 31

/-- Lower two XCR0 bits (x87 FPU/MMX and SSE): the mandatory XFRM template
(`SECS_XFRM_TEMPLATE` in src/arch/x86_64/enclave.rs). -/
def SECS_XFRM_TEMPLATE : Nat := 3

/-- Normalized fault description as delivered to the normal-world kernel
(`ExceptionInfo` in the arch exception module). -/
structure ExceptionInfo where
  exception_type : Nat
  error_code : Option Nat
  cr2 : Option Nat
deriving DecidableEq

/-- Constructor mirroring `ExceptionInfo::new`. -/
def ExceptionInfo.new (ty : Nat) (ec : Option Nat) (fault_address : Option Nat) :
    ExceptionInfo :=
  { exception_type := ty, error_code := ec, cr2 := fault_address }

/-- Modelled from the spec: the SSA misc-exception record (`MiscSgx` from
`crate::enclave::sgx`, not among the provided sources) carries the exact
faulting address and a secondary error code. -/
structure MiscSgx where
  maddr : Nat
  errcd : Nat
deriving DecidableEq

/-- Constructor mirroring `MiscSgx::new`. -/
def MiscSgx.new (addr : Nat) (errcd : Nat) : MiscSgx :=
  { maddr := addr, errcd := errcd }

/-- Secure-world view of a fault (`AexException` from `crate::enclave`). -/
structure AexException where
  vec : Nat
  misc : Option MiscSgx
deriving DecidableEq

/-- Pair of the normal-world and the optional secure-world view of one fault
(`EnclaveExceptionInfo` in src/arch/x86_64/enclave.rs). -/
structure EnclaveExceptionInfo where
  linux_info : ExceptionInfo
  aex_excep : Option AexException
deriving DecidableEq

/-- Mirrors `EnclaveExceptionInfo::page_fault_in_encl`: the normal-world view
gets the page-aligned fault address, the secure-world misc record the exact
one; the two error codes are chosen by the caller. -/
def EnclaveExceptionInfo.page_fault_in_encl (errcd_for_linux : Nat)
    (errcd_for_misc : Nat) (fault_vaddr : Nat) : EnclaveExceptionInfo :=
  let fault_addr_for_linux := align_down fault_vaddr
  { linux_info :=
      ExceptionInfo.new ExceptionType.PageFault (some errcd_for_linux)
        (some fault_addr_for_linux)
    aex_excep :=
      some { vec := ExceptionType.PageFault
             misc := some (MiscSgx.new fault_vaddr errcd_for_misc) } }

/-- Mirrors `EnclaveExceptionInfo::page_fault_out_encl`. -/
def EnclaveExceptionInfo.page_fault_out_encl (error_code : Nat)
    (fault_vaddr : Nat) : EnclaveExceptionInfo :=
  { linux_info :=
      ExceptionInfo.new ExceptionType.PageFault (some error_code)
        (some fault_vaddr)
    aex_excep := none }

/-- Modelled from the spec: a half-open virtual-address range; the enclave
address space is partitioned into the private `elrange` and the shared-memory
range, each queried with a `contains` test. -/
structure AddrRange where
  start : Nat
  stop : Nat
deriving DecidableEq

/-- Range membership, `start <= a < stop` as in `Range::contains`. -/
def AddrRange.contains (r : AddrRange) (a : Nat) : Bool :=
  decide (r.start ≤ a) && decide (a < r.stop)

/-- Modelled from the spec: the enclave owns a private range and a
shared-memory range (the reader/writer lock around the shared range is
irrelevant to the sequential fault path modelled here). -/
structure Enclave where
  elrange : AddrRange
  shmem : AddrRange
deriving DecidableEq

/-- Modelled from the spec: `Enclave::fixup_pf_in_elrange` (defined outside
the provided sources) handles a #PF in the enclave private range by injecting
it through the normal path with matching error codes for both views. -/
def Enclave.fixup_pf_in_elrange (_e : Enclave) (error_code : Nat)
    (fault_gvaddr : Nat) : Except String (Option EnclaveExceptionInfo) :=
  .ok (some (EnclaveExceptionInfo.page_fault_in_encl error_code error_code
    fault_gvaddr))

/-- Mirrors `Enclave::fixup_exception`: classify a raw fault (vector,
optional error code, optional faulting address) against the enclave address
layout and produce the two-view injection decision. -/
def Enclave.fixup_exception (e : Enclave) (vec : Nat)
    (error_code : Option Nat) (fault_gvaddr : Option Nat) :
    Except String (Option EnclaveExceptionInfo) :=
  if vec ≠ ExceptionType.PageFault then
    let miscRes : Except String (Option MiscSgx) :=
      if vec = ExceptionType.GeneralProtectionFault then
        match error_code with
        | some misc_errcd => .ok (some (MiscSgx.new 0 misc_errcd))
        | none => .error "fixup_exception: Bug, error_code is None for GP"
      else
        .ok none
    match miscRes with
    | .error m => .error m
    | .ok misc =>
        .ok (some
          { linux_info := ExceptionInfo.new vec error_code none
            aex_excep := some { vec := vec, misc := misc } })
  else
    match fault_gvaddr with
    | none => .error "fixup_exception: Bug, fault addr is None for PF"
    | some fault_gvaddr =>
      match error_code with
      | none => .error "fixup_exception: Bug, error code is None for PF"
      | some error_code =>
        if fault_gvaddr = 0 then
          .ok (some (EnclaveExceptionInfo.page_fault_in_encl error_code
            error_code fault_gvaddr))
        else if e.elrange.contains fault_gvaddr then
          e.fixup_pf_in_elrange error_code fault_gvaddr
        else if e.shmem.contains fault_gvaddr then
          .ok (some (EnclaveExceptionInfo.page_fault_in_encl error_code
            (error_code ||| EnclavePFErrorCode.SHARED_MEM_FETCH) fault_gvaddr))
        else
          .ok (some (EnclaveExceptionInfo.page_fault_in_encl
            (PageFaultErrorCode.PROTECTION_VIOLATION |||
              PageFaultErrorCode.USER_MODE)
            error_code fault_gvaddr))

/-- General-purpose register block of the virtual CPU (`GuestRegisters`;
stack pointer and instruction pointer are accessed separately through the
vcpu trait, matching the source layout). -/
structure GuestRegisters where
  rax : Nat
  rcx : Nat
  rdx : Nat
  rbx : Nat
  rbp : Nat
  rsi : Nat
  rdi : Nat
  r8 : Nat
  r9 : Nat
  r10 : Nat
  r11 : Nat
  r12 : Nat
  r13 : Nat
  r14 : Nat
  r15 : Nat
deriving DecidableEq

/-- Zeroed register block, the `Default::default()` used by the AEX scrub. -/
def GuestRegisters.default : GuestRegisters :=
  { rax := 0, rcx := 0, rdx := 0, rbx := 0, rbp := 0, rsi := 0, rdi := 0,
    r8 := 0, r9 := 0, r10 := 0, r11 := 0, r12 := 0, r13 := 0, r14 := 0,
    r15 := 0 }

/-- Snapshot of control-flow and addressing state for one world
(`EnclaveThreadState` in src/arch/x86_64/enclave.rs). -/
structure EnclaveThreadState where
  rflags : Nat
  fs_base : Nat
  gs_base : Nat
  xcr0 : Nat
  hv_page_table_root : Nat
  page_table_root : Nat
  efer : Nat
  idtr_base : Nat
  idtr_limit : Nat
deriving DecidableEq

/-- Modelled from the spec: the live virtual-CPU state reachable through the
`VcpuAccessGuestState` / `VcpuAccessEnclaveState` capability traits (the
traits themselves are not among the provided sources). Fields mirror the
trait accessors used by the transition engine: general registers, stack and
instruction pointer, flags, EFER, CR4, XCR0, the two segment bases, and the
page-table roots / IDTR written by `store_enclave_thread_state`. -/
structure Vcpu where
  regs : GuestRegisters
  stackPointer : Nat
  instrPointer : Nat
  rflags : Nat
  efer : Nat
  cr4 : Nat
  xcr0 : Nat
  fsBase : Nat
  gsBase : Nat
  hvPtRoot : Nat
  ptRoot : Nat
  idtrBase : Nat
  idtrLimit : Nat
deriving DecidableEq

/-- Modelled from the spec: `store_enclave_thread_state` loads an
`EnclaveThreadState` snapshot into the live virtual-CPU control structure
and redirects execution to the given instruction pointer; it does not touch
the general-purpose register block or the stack pointer. -/
def Vcpu.store_enclave_thread_state (v : Vcpu) (ip : Nat)
    (s : EnclaveThreadState) (_for_enclave : Bool) : Vcpu :=
  { v with
    instrPointer := ip
    rflags := s.rflags
    fsBase := s.fs_base
    gsBase := s.gs_base
    xcr0 := s.xcr0
    efer := s.efer
    hvPtRoot := s.hv_page_table_root
    ptRoot := s.page_table_root
    idtrBase := s.idtr_base
    idtrLimit := s.idtr_limit }

/-- Result type standing in for `HvResult` on functions that mutate the vcpu
through a mutable borrow: an early error return leaves the state as it was
at the point of failure, so the error constructor carries that state. -/
inductive HvResult (α : Type) where
  | ok : α → HvResult α
  | err : String → α → HvResult α
deriving DecidableEq

/-- Modelled from the spec: the SSA general-register record (`GprSgx` from
`crate::enclave::sgx`), including the user-level stack and frame pointers
(`ursp`/`urbp`) that the enclave entry code maintains and the exit-info tag. -/
structure GprSgx where
  rax : Nat
  rcx : Nat
  rdx : Nat
  rbx : Nat
  rsp : Nat
  rbp : Nat
  rsi : Nat
  rdi : Nat
  r8 : Nat
  r9 : Nat
  r10 : Nat
  r11 : Nat
  r12 : Nat
  r13 : Nat
  r14 : Nat
  r15 : Nat
  rflags : Nat
  rip : Nat
  ursp : Nat
  urbp : Nat
  exit_info : Nat
  fs_base : Nat
  gs_base : Nat
deriving DecidableEq

/-- Modelled from the spec: `SgxExitInfo::from_vector` computes the SSA
exit-reason tag from the triggering exception vector. -/
def SgxExitInfo.from_vector (vec : Nat) : Nat := vec

/-- Modelled from the spec: the SSA extended-state image. `save` writes a
well-formed image; `validate_at_resume` is the implementation-defined
sentinel check that a resume performs on the saved image. -/
structure XsaveRegion where
  sentinelOk : Bool
deriving DecidableEq

/-- Saving the live extended state (governed by xfrm) produces a well-formed
image; the physical extended registers are outside this model. -/
def XsaveRegion.save (_x : XsaveRegion) (_xfrm : Nat) : XsaveRegion :=
  { sentinelOk := true }

/-- Sentinel self-consistency check run by `enclave_resume` on the image. -/
def XsaveRegion.validate_at_resume (x : XsaveRegion) (_xfrm : Nat) :
    Option String :=
  if x.sentinelOk then none else some "xsave image corrupt"

/-- Modelled from the spec: the per-thread State Save Area
(`StateSaveArea` from `crate::enclave::sgx`): general-register record,
misc-exception record, extended-state image. -/
structure StateSaveArea where
  gpr : GprSgx
  misc : MiscSgx
  xsave : XsaveRegion
deriving DecidableEq

/-- Modelled from the spec: the resume-request opcode
(`HyperCallCode::EnclaveResume`) placed in the first hand-off register after
an AEX; its concrete numeric value is outside the provided sources. -/
def HyperCallCode.EnclaveResume : Nat := 1

/-- Mirrors `EnclaveThreadState::validate_xfrm`: CR4.OSFXSR (bit 9) must be
set; with CR4.OSXSAVE (bit 18) set the request must be a bitwise subset of
XCR0, otherwise it must equal the legacy template exactly. -/
def EnclaveThreadState.validate_xfrm (v : Vcpu) (xfrm : Nat) :
    Option String :=
  if ¬ v.cr4.testBit 9 then
    some "EnclaveThreadState::enclave_enter(): CR4.OSFXSR != 1"
  else if v.cr4.testBit 18 then
    if v.xcr0 &&& xfrm ≠ xfrm then
      some "EnclaveThreadState::enclave_enter(): xfrm should be subset of XCR0 if CR4.OSXSAVE = 1"
    else
      none
  else if xfrm ≠ SECS_XFRM_TEMPLATE then
    some "EnclaveThreadState::enclave_enter(): xfrm != 3 when CR4.OSXSAVE != 0"
  else
    none

/-- Mirrors `EnclaveThreadState::enclave_enter`. `encIrq` is the build-time
`enclave_interrupt` feature. The EFER update is the literal u64 subtraction
`vcpu.efer() - EferFlags::SYSTEM_CALL_EXTENSIONS.bits()` from the source,
i.e. wrapping subtraction of 1 (SCE is bit 0). -/
def EnclaveThreadState.enclave_enter (encIrq : Bool) (v : Vcpu)
    (entry_ip fs_base gs_base xfrm cssa hv_page_table_root page_table_root :
      Nat) : HvResult Vcpu :=
  match EnclaveThreadState.validate_xfrm v xfrm with
  | some m => .err m v
  | none =>
    let rflags :=
      if encIrq then v.rflags ||| 2 ^ 9
      else v.rflags &&& (mask64 ^^^ 2 ^ 9)
    let efer := (v.efer + mask64) % 2 ^ 64
    let sec_world_state : EnclaveThreadState :=
      { rflags := rflags, fs_base := fs_base, gs_base := gs_base,
        xcr0 := xfrm, idtr_base := 0, idtr_limit := 0, efer := efer,
        hv_page_table_root := hv_page_table_root,
        page_table_root := page_table_root }
    let v := { v with regs := { v.regs with rax := cssa } }
    let v := { v with regs := { v.regs with rcx := v.instrPointer } }
    .ok (v.store_enclave_thread_state entry_ip sec_world_state true)

/-- Mirrors `EnclaveThreadState::enclave_exit`. -/
def EnclaveThreadState.enclave_exit (v : Vcpu) (exit_ip aep : Nat)
    (normal_world_state : EnclaveThreadState) : HvResult Vcpu :=
  let v := v.store_enclave_thread_state exit_ip normal_world_state false
  .ok { v with regs := { v.regs with rcx := aep } }

/-- Mirrors `EnclaveThreadState::enclave_aex`: capture the live state into
the SSA, save the extended state, restore the normal-world snapshot, scrub
the register block, and install the three hand-off registers plus the
user-level stack and frame pointers from the SSA record. -/
def EnclaveThreadState.enclave_aex (v : Vcpu) (aex_excep : AexException)
    (aep xfrm tcs_vaddr : Nat) (ssa : StateSaveArea)
    (normal_world_state : EnclaveThreadState) :
    HvResult (Vcpu × StateSaveArea) :=
  let regs := v.regs
  let gpr : GprSgx :=
    { ssa.gpr with
      rax := regs.rax, rcx := regs.rcx, rdx := regs.rdx, rbx := regs.rbx,
      rsp := v.stackPointer, rbp := regs.rbp, rsi := regs.rsi,
      rdi := regs.rdi, r8 := regs.r8, r9 := regs.r9, r10 := regs.r10,
      r11 := regs.r11, r12 := regs.r12, r13 := regs.r13, r14 := regs.r14,
      r15 := regs.r15, rflags := v.rflags, rip := v.instrPointer,
      exit_info := SgxExitInfo.from_vector aex_excep.vec,
      fs_base := v.fsBase, gs_base := v.gsBase }
  let misc :=
    match aex_excep.misc with
    | some misc_in => { maddr := misc_in.maddr, errcd := misc_in.errcd }
    | none => ssa.misc
  let xsave := ssa.xsave.save xfrm
  let ssa1 : StateSaveArea := { gpr := gpr, misc := misc, xsave := xsave }
  let v1 := v.store_enclave_thread_state aep normal_world_state false
  let regs1 :=
    { GuestRegisters.default with
      rax := HyperCallCode.EnclaveResume, rbx := tcs_vaddr, rcx := aep,
      rbp := gpr.urbp }
  let v2 := { v1 with regs := regs1, stackPointer := gpr.ursp }
  .ok (v2, ssa1)

/-- Mirrors `EnclaveThreadState::enclave_resume`: re-validate the XFRM and
the SSA extended-state image, store the secure-world snapshot rebuilt from
the SSA general-register record, and restore the register block and stack
pointer from it. The EFER update is the same literal u64 subtraction as on
entry. -/
def EnclaveThreadState.enclave_resume (v : Vcpu)
    (xfrm hv_page_table_root page_table_root : Nat) (ssa : StateSaveArea) :
    HvResult Vcpu :=
  match EnclaveThreadState.validate_xfrm v xfrm with
  | some m => .err m v
  | none =>
    match ssa.xsave.validate_at_resume xfrm with
    | some m => .err m v
    | none =>
      let gpr := ssa.gpr
      let efer := (v.efer + mask64) % 2 ^ 64
      let sec_world_state : EnclaveThreadState :=
        { fs_base := gpr.fs_base, gs_base := gpr.gs_base, xcr0 := xfrm,
          rflags := gpr.rflags, idtr_base := 0, idtr_limit := 0,
          efer := efer, hv_page_table_root := hv_page_table_root,
          page_table_root := page_table_root }
      let v1 := v.store_enclave_thread_state gpr.rip sec_world_state true
      let regs1 : GuestRegisters :=
        { rax := gpr.rax, rcx := gpr.rcx, rdx := gpr.rdx, rbx := gpr.rbx,
          rbp := gpr.rbp, rsi := gpr.rsi, rdi := gpr.rdi, r8 := gpr.r8,
          r9 := gpr.r9, r10 := gpr.r10, r11 := gpr.r11, r12 := gpr.r12,
          r13 := gpr.r13, r14 := gpr.r14, r15 := gpr.r15 }
      .ok { v1 with regs := regs1, stackPointer := gpr.rsp }

/-- Boolean power-of-two test matching `u64::is_power_of_two`. -/
def isPowerOfTwoB (n : Nat) : Bool :=
  decide (n ≠ 0) && decide (n &&& (n - 1) = 0)

/-- Modelled from the spec: `is_aligned` from `crate::memory::addr` checks
page alignment. -/
def is_aligned (n : Nat) : Bool := decide (n % PAGE_SIZE = 0)

/-- Size in bytes of the XSAVE legacy region (architectural constant used by
`crate::arch::x86_64::xsave`, outside the provided sources). -/
def XSAVE_LEGACY_REGION_SIZE : Nat := 512

/-- Size in bytes of the XSAVE header (architectural constant). -/
def XSAVE_HEADER_SIZE : Nat := 64

/-- Modelled from the spec: byte size of the SSA misc-exception record. -/
def MiscSgx.sizeOfBytes : Nat := 16

/-- Modelled from the spec: byte size of the SSA general-register record. -/
def GprSgx.sizeOfBytes : Nat := 184

/-- Modelled from the spec: the fixed build-time ceiling on the SSA frame
size (`SSA_FRAME_SIZE` from `crate::enclave::sgx`, outside the provided
sources). -/
def SSA_FRAME_SIZE : Nat := 4096

/-- Modelled from the spec: the hardware feature descriptor consumed by
`SgxSecs::validate` — the legal-XCR0 bit mask and, per extended-state
component, its (offset, size) pair (`CpuFeatures::xcr0_supported_bits` /
`CpuFeatures::xsave_state_info`). -/
structure CpuFeatures where
  xcr0_supported_bits : Nat
  xsave_state_info : Nat → Nat × Nat

/-- Enclave-creation descriptor (`SgxSecs`), restricted to the fields read
by `SgxSecs::validate`; `xfrm` stands for `attributes.xfrm`. -/
structure SgxSecs where
  size : Nat
  ms_buf_size : Nat
  xfrm : Nat
  ssa_frame_size : Nat
deriving DecidableEq

/-- Mirrors the `xsave_size` loop of `SgxSecs::validate` (the Intel SDM
38.7.2.2 pseudo code): scan bits 2..=63 of xfrm in increasing order and
replace the running (offset, size) pair by a component only when that
component's offset is at least the running offset + size. -/
def xsaveSize (cpuid : CpuFeatures) (xfrm : Nat) : Nat :=
  let r := (List.range' 2 62).foldl
    (fun acc sub_leaf =>
      if (xfrm >>> sub_leaf) &&& 1 = 1 then
        let p := cpuid.xsave_state_info sub_leaf
        if p.1 ≥ acc.1 + acc.2 then (p.1, p.2) else acc
      else acc)
    (XSAVE_LEGACY_REGION_SIZE + XSAVE_HEADER_SIZE, 0)
  r.1 + r.2

/-- Minimum SSA frame size needed, as computed by `SgxSecs::validate`. -/
def ssaFrameSizeNeeded (cpuid : CpuFeatures) (xfrm : Nat) : Nat :=
  xsaveSize cpuid xfrm + MiscSgx.sizeOfBytes + GprSgx.sizeOfBytes

/-- Follows the claim's words, for comparison with `xsaveSize`: the maximum
of (offset + size) over every component whose bit is set in xfrm, starting
from the legacy-region-plus-header base. -/
def xsaveSizeClaim (cpuid : CpuFeatures) (xfrm : Nat) : Nat :=
  (List.range' 2 62).foldl
    (fun acc sub_leaf =>
      if (xfrm >>> sub_leaf) &&& 1 = 1 then
        let p := cpuid.xsave_state_info sub_leaf
        max acc (p.1 + p.2)
      else acc)
    (XSAVE_LEGACY_REGION_SIZE + XSAVE_HEADER_SIZE)

/-- Follows the claim's words: minimum frame size under the claim's
max-of-(offset+size) reading. -/
def ssaFrameSizeNeededClaim (cpuid : CpuFeatures) (xfrm : Nat) : Nat :=
  xsaveSizeClaim cpuid xfrm + MiscSgx.sizeOfBytes + GprSgx.sizeOfBytes

/-- Mirrors `SgxSecs::validate`: shape checks on size and the auxiliary
buffer, the XFRM template and legality checks, then the two frame-size
comparisons against the caller-declared size and the build-time ceiling. -/
def SgxSecs.validate (cpuid : CpuFeatures) (secs : SgxSecs) :
    Option String :=
  if secs.size < PAGE_SIZE ∨ isPowerOfTwoB secs.size = false then
    some "SgxSecs::validate(): secs.size must be power of 2"
  else if secs.ms_buf_size = 0 ∨ is_aligned secs.ms_buf_size = false then
    some "SgxSecs::validate(): invalid secs.ms_buf_size"
  else if secs.xfrm &&& SECS_XFRM_TEMPLATE ≠ SECS_XFRM_TEMPLATE then
    some "SgxSecs::validate(): invalid secs.attributes.xfrm"
  else if secs.xfrm &&& cpuid.xcr0_supported_bits ≠ secs.xfrm then
    some "SgxSecs::validate(): xfrm must contain legal value if it set to xcr0"
  else
    let ssa_frame_size_needed := ssaFrameSizeNeeded cpuid secs.xfrm
    let ssa_frame_size_from_user := secs.ssa_frame_size * PAGE_SIZE
    if ssa_frame_size_needed > ssa_frame_size_from_user then
      some "SgxSecs::validate(): ssa_framsize not enough"
    else if ssa_frame_size_needed > SSA_FRAME_SIZE then
      some "SgxSecs::validate(): the max SSA_FRAM_SIZE is exceeded"
    else
      none

/-- C1 counterexample: for a page fault at address 20000, outside the
private range [4096, 8192) and the shared range [8192, 12288) and nonzero,
`fixup_exception` does return linux error code exactly
protection-violation OR user-mode (= 5), but the result carries a
secure-world (aex_excep) view — contradicting the claim that no
secure-world view is produced. -/
theorem fixup_outside_ranges_counterexample :
    Enclave.fixup_exception
        { elrange := { start := 4096, stop := 8192 },
          shmem := { start := 8192, stop := 12288 } }
        ExceptionType.PageFault (some 2) (some 20000) =
      .ok (some
        { linux_info :=
            { exception_type := 14, error_code := some 5, cr2 := some 16384 }
          aex_excep :=
            some { vec := 14, misc := some { maddr := 20000, errcd := 2 } } })
      ∧ (some { vec := 14, misc := some { maddr := 20000, errcd := 2 } } :
          Option AexException) ≠ none := by
  exact ⟨by decide, by decide⟩

/-- Claim C1 (amended): for every page fault whose faulting address is
outside the private range, outside the shared-memory range and nonzero,
`fixup_exception` returns a result whose normal-world (linux) error code is
exactly protection-violation OR user-mode (all other input bits discarded)
and whose secure-world (aex_excep) view is present, carrying the exact
faulting address and the unmodified input error code in its misc record. -/
theorem fixup_outside_ranges (e : Enclave) (ec addr : Nat)
    (h0 : addr ≠ 0)
    (hel : e.elrange.contains addr = false)
    (hsh : e.shmem.contains addr = false) :
    e.fixup_exception ExceptionType.PageFault (some ec) (some addr) =
      .ok (some
        { linux_info :=
            ExceptionInfo.new ExceptionType.PageFault
              (some (PageFaultErrorCode.PROTECTION_VIOLATION |||
                PageFaultErrorCode.USER_MODE))
              (some (align_down addr))
          aex_excep :=
            some { vec := ExceptionType.PageFault
                   misc := some (MiscSgx.new addr ec) } }) := by
  simp [Enclave.fixup_exception, h0, hel, hsh,
    EnclaveExceptionInfo.page_fault_in_encl]

/-- Witness for C1 at a concrete input. -/
theorem fixup_outside_ranges_witness :
    Enclave.fixup_exception
        { elrange := { start := 4096, stop := 8192 },
          shmem := { start := 8192, stop := 12288 } }
        ExceptionType.PageFault (some 11) (some 70000) =
      .ok (some
        { linux_info :=
            ExceptionInfo.new ExceptionType.PageFault
              (some (PageFaultErrorCode.PROTECTION_VIOLATION |||
                PageFaultErrorCode.USER_MODE))
              (some (align_down 70000))
          aex_excep :=
            some { vec := ExceptionType.PageFault
                   misc := some (MiscSgx.new 70000 11) } }) :=
  fixup_outside_ranges _ 11 70000 (by decide) (by decide) (by decide)

/-- Claim C5: for every page fault whose faulting address is nonzero, not in
the private range, and inside the shared-memory range, `fixup_exception`
yields a secure-world error code equal to the input error code OR the
shared-memory-fetch bit (bit 31), while the normal-world view carries the
input error code unmodified. -/
theorem fixup_shared_mem (e : Enclave) (ec addr : Nat)
    (h0 : addr ≠ 0)
    (hel : e.elrange.contains addr = false)
    (hsh : e.shmem.contains addr = true) :
    e.fixup_exception ExceptionType.PageFault (some ec) (some addr) =
      .ok (some
        { linux_info :=
            ExceptionInfo.new ExceptionType.PageFault (some ec)
              (some (align_down addr))
          aex_excep :=
            some { vec := ExceptionType.PageFault
                   misc := some (MiscSgx.new addr
                     (ec ||| EnclavePFErrorCode.SHARED_MEM_FETCH)) } }) := by
  simp [Enclave.fixup_exception, h0, hel, hsh,
    EnclaveExceptionInfo.page_fault_in_encl]

/-- Witness for C5 at a concrete input. -/
theorem fixup_shared_mem_witness :
    Enclave.fixup_exception
        { elrange := { start := 4096, stop := 8192 },
          shmem := { start := 8192, stop := 12288 } }
        ExceptionType.PageFault (some 7) (some 9000) =
      .ok (some
        { linux_info :=
            ExceptionInfo.new ExceptionType.PageFault (some 7)
              (some (align_down 9000))
          aex_excep :=
            some { vec := ExceptionType.PageFault
                   misc := some (MiscSgx.new 9000
                     (7 ||| EnclavePFErrorCode.SHARED_MEM_FETCH)) } }) :=
  fixup_shared_mem _ 7 9000 (by decide) (by decide) (by decide)

/-- Claim C10: an injected in-enclave page fault gives the normal world the
page-aligned fault address while the secure-world misc record keeps the
exact address; the null-page branch of `fixup_exception` fires exactly at
address zero, and an address elsewhere in the null page (1..4095) is
dispatched by the range checks instead. -/
theorem pf_alignment_and_null_branch (e : Enclave) (ec addr : Nat)
    (h1 : 0 < addr) (_h2 : addr < PAGE_SIZE) :
    (∀ eL eM a,
      (EnclaveExceptionInfo.page_fault_in_encl eL eM a).linux_info.cr2 =
          some (align_down a) ∧
      (EnclaveExceptionInfo.page_fault_in_encl eL eM a).aex_excep =
        some { vec := ExceptionType.PageFault
               misc := some (MiscSgx.new a eM) }) ∧
    (e.fixup_exception ExceptionType.PageFault (some ec) (some 0) =
      .ok (some (EnclaveExceptionInfo.page_fault_in_encl ec ec 0))) ∧
    (e.fixup_exception ExceptionType.PageFault (some ec) (some addr) =
      (if e.elrange.contains addr then e.fixup_pf_in_elrange ec addr
       else if e.shmem.contains addr then
         .ok (some (EnclaveExceptionInfo.page_fault_in_encl ec
           (ec ||| EnclavePFErrorCode.SHARED_MEM_FETCH) addr))
       else
         .ok (some (EnclaveExceptionInfo.page_fault_in_encl
           (PageFaultErrorCode.PROTECTION_VIOLATION |||
             PageFaultErrorCode.USER_MODE) ec addr)))) := by
  refine ⟨fun eL eM a => ⟨rfl, rfl⟩, ?_, ?_⟩
  · simp [Enclave.fixup_exception]
  · simp [Enclave.fixup_exception, Nat.pos_iff_ne_zero.mp h1]

/-- Witness for C10 at a concrete input. -/
theorem pf_alignment_and_null_branch_witness :
    (∀ eL eM a,
      (EnclaveExceptionInfo.page_fault_in_encl eL eM a).linux_info.cr2 =
          some (align_down a) ∧
      (EnclaveExceptionInfo.page_fault_in_encl eL eM a).aex_excep =
        some { vec := ExceptionType.PageFault
               misc := some (MiscSgx.new a eM) }) ∧
    (Enclave.fixup_exception
        { elrange := { start := 4096, stop := 8192 },
          shmem := { start := 8192, stop := 12288 } }
        ExceptionType.PageFault (some 3) (some 0) =
      .ok (some (EnclaveExceptionInfo.page_fault_in_encl 3 3 0))) ∧
    (Enclave.fixup_exception
        { elrange := { start := 4096, stop := 8192 },
          shmem := { start := 8192, stop := 12288 } }
        ExceptionType.PageFault (some 3) (some 77) =
      (if AddrRange.contains { start := 4096, stop := 8192 } 77 then
         Enclave.fixup_pf_in_elrange
           { elrange := { start := 4096, stop := 8192 },
             shmem := { start := 8192, stop := 12288 } } 3 77
       else if AddrRange.contains { start := 8192, stop := 12288 } 77 then
         .ok (some (EnclaveExceptionInfo.page_fault_in_encl 3
           (3 ||| EnclavePFErrorCode.SHARED_MEM_FETCH) 77))
       else
         .ok (some (EnclaveExceptionInfo.page_fault_in_encl
           (PageFaultErrorCode.PROTECTION_VIOLATION |||
             PageFaultErrorCode.USER_MODE) 3 77)))) :=
  pf_alignment_and_null_branch _ 3 77 (by decide) (by decide)

/-- Claim C9: `fixup_exception` returns an error exactly when the vector is
a general-protection fault with no error code, or a page fault missing its
faulting address or error code; every non-page-fault vector with its
required inputs present yields a result whose secure-world view is present,
carrying misc detail (address 0, the error code) iff the vector is the
general-protection fault. -/
theorem fixup_fatal_and_passthrough (e : Enclave) (vec : Nat)
    (ec addr : Option Nat) :
    ((∃ m, e.fixup_exception vec ec addr = .error m) ↔
      ((vec = ExceptionType.GeneralProtectionFault ∧ ec = none) ∨
       (vec = ExceptionType.PageFault ∧ (addr = none ∨ ec = none)))) ∧
    (vec ≠ ExceptionType.PageFault →
      (vec = ExceptionType.GeneralProtectionFault → ec ≠ none) →
      ∃ ax, e.fixup_exception vec ec addr =
          .ok (some { linux_info := ExceptionInfo.new vec ec none
                      aex_excep := some ax }) ∧
        ax.vec = vec ∧
        ((∃ c, ec = some c ∧ ax.misc = some (MiscSgx.new 0 c)) ↔
          vec = ExceptionType.GeneralProtectionFault)) := by
  constructor
  · by_cases hpf : vec = ExceptionType.PageFault
    · subst hpf
      rcases addr with _ | a
      · cases ec <;>
          simp [Enclave.fixup_exception, ExceptionType.PageFault,
            ExceptionType.GeneralProtectionFault]
      · rcases ec with _ | c
        · simp [Enclave.fixup_exception, ExceptionType.PageFault,
            ExceptionType.GeneralProtectionFault]
        · simp only [Enclave.fixup_exception, ExceptionType.PageFault,
            ExceptionType.GeneralProtectionFault]
          constructor
          · rintro ⟨m, hm⟩
            revert hm
            simp only [ne_eq, not_true_eq_false, reduceIte]
            split
            · simp
            · split
              · simp [Enclave.fixup_pf_in_elrange]
              · split <;> simp
          · rintro (⟨h13, _⟩ | ⟨_, h | h⟩) <;> simp_all
    · by_cases hgp : vec = ExceptionType.GeneralProtectionFault
      · subst hgp
        cases ec <;>
          simp [Enclave.fixup_exception, ExceptionType.PageFault,
            ExceptionType.GeneralProtectionFault]
      · simp [Enclave.fixup_exception, hpf, hgp]
  · intro hpf hgp
    by_cases hg : vec = ExceptionType.GeneralProtectionFault
    · rcases ec with _ | c
      · exact absurd rfl (hgp hg)
      · refine ⟨{ vec := vec, misc := some (MiscSgx.new 0 c) }, ?_, rfl, ?_⟩
        · simp [Enclave.fixup_exception, hpf, hg,
            ExceptionType.GeneralProtectionFault, ExceptionType.PageFault]
        · simp [hg]
    · refine ⟨{ vec := vec, misc := none }, ?_, rfl, ?_⟩
      · simp [Enclave.fixup_exception, hpf, hg]
      · simp [hg]

/-- Witness for C9 at concrete inputs: a #GP without error code is an
error, and a #UD passes through with a secure-world view and no misc. -/
theorem fixup_fatal_and_passthrough_witness :
    (∃ m, Enclave.fixup_exception
        { elrange := { start := 4096, stop := 8192 },
          shmem := { start := 8192, stop := 12288 } }
        ExceptionType.GeneralProtectionFault none none = .error m) ∧
    (∃ ax, Enclave.fixup_exception
        { elrange := { start := 4096, stop := 8192 },
          shmem := { start := 8192, stop := 12288 } }
        ExceptionType.InvalidOpcode (some 9) none =
          .ok (some
            { linux_info :=
                ExceptionInfo.new ExceptionType.InvalidOpcode (some 9) none
              aex_excep := some ax }) ∧
      ax.vec = ExceptionType.InvalidOpcode ∧
      ((∃ c, (some 9 : Option Nat) = some c ∧
          ax.misc = some (MiscSgx.new 0 c)) ↔
        ExceptionType.InvalidOpcode =
          ExceptionType.GeneralProtectionFault)) :=
  ⟨(fixup_fatal_and_passthrough
      { elrange := { start := 4096, stop := 8192 },
        shmem := { start := 8192, stop := 12288 } }
      ExceptionType.GeneralProtectionFault none none).1.mpr
        (Or.inl ⟨rfl, rfl⟩),
   (fixup_fatal_and_passthrough
      { elrange := { start := 4096, stop := 8192 },
        shmem := { start := 8192, stop := 12288 } }
      ExceptionType.InvalidOpcode (some 9) none).2
        (by decide) (by decide)⟩

/-- Helper: the XFRM validation passes whenever OSFXSR is set and the
request satisfies the OSXSAVE-dependent rule. -/
theorem validate_xfrm_of (v : Vcpu) (xfrm : Nat)
    (h9 : v.cr4.testBit 9 = true)
    (hx : (v.cr4.testBit 18 = true ∧ v.xcr0 &&& xfrm = xfrm) ∨
          (v.cr4.testBit 18 = false ∧ xfrm = SECS_XFRM_TEMPLATE)) :
    EnclaveThreadState.validate_xfrm v xfrm = none := by
  rcases hx with ⟨h18, hsub⟩ | ⟨h18, ht⟩
  · simp [EnclaveThreadState.validate_xfrm, h9, h18, hsub]
  · simp [EnclaveThreadState.validate_xfrm, h9, h18, ht]

/-- Helper: explicit shape of a successful `enclave_resume`. -/
theorem enclave_resume_ok_shape (v : Vcpu) (xfrm hr pr : Nat)
    (ssa : StateSaveArea)
    (hval : EnclaveThreadState.validate_xfrm v xfrm = none)
    (hxs : ssa.xsave.validate_at_resume xfrm = none) :
    EnclaveThreadState.enclave_resume v xfrm hr pr ssa =
      .ok { regs :=
              { rax := ssa.gpr.rax, rcx := ssa.gpr.rcx,
                rdx := ssa.gpr.rdx, rbx := ssa.gpr.rbx, rbp := ssa.gpr.rbp,
                rsi := ssa.gpr.rsi, rdi := ssa.gpr.rdi, r8 := ssa.gpr.r8,
                r9 := ssa.gpr.r9, r10 := ssa.gpr.r10, r11 := ssa.gpr.r11,
                r12 := ssa.gpr.r12, r13 := ssa.gpr.r13, r14 := ssa.gpr.r14,
                r15 := ssa.gpr.r15 }
            stackPointer := ssa.gpr.rsp
            instrPointer := ssa.gpr.rip
            rflags := ssa.gpr.rflags
            efer := (v.efer + mask64) % 2 ^ 64
            cr4 := v.cr4
            xcr0 := xfrm
            fsBase := ssa.gpr.fs_base
            gsBase := ssa.gpr.gs_base
            hvPtRoot := hr
            ptRoot := pr
            idtrBase := 0
            idtrLimit := 0 } := by
  simp [EnclaveThreadState.enclave_resume, hval, hxs,
    Vcpu.store_enclave_thread_state]

/-- Claim C3: the XFRM validation shared by `enclave_enter` and
`enclave_resume` accepts a request iff CR4.OSFXSR is set and either
CR4.OSXSAVE is set with the request a bitwise subset of XCR0, or OSXSAVE is
clear with the request exactly the legacy FP+SIMD template; a rejection by
the rule makes enter and resume fail with the identical error. -/
theorem validate_xfrm_rule (v : Vcpu) (xfrm : Nat) (encIrq : Bool)
    (entry fs gs cssa hr pr hr2 pr2 : Nat) (ssa : StateSaveArea) :
    (EnclaveThreadState.validate_xfrm v xfrm = none ↔
      (v.cr4.testBit 9 = true ∧
        ((v.cr4.testBit 18 = true ∧ v.xcr0 &&& xfrm = xfrm) ∨
         (v.cr4.testBit 18 = false ∧ xfrm = SECS_XFRM_TEMPLATE)))) ∧
    (∀ m, EnclaveThreadState.validate_xfrm v xfrm = some m →
      EnclaveThreadState.enclave_enter encIrq v entry fs gs xfrm cssa hr pr =
        .err m v ∧
      EnclaveThreadState.enclave_resume v xfrm hr2 pr2 ssa = .err m v) := by
  constructor
  · by_cases h9 : v.cr4.testBit 9 <;> by_cases h18 : v.cr4.testBit 18 <;>
      by_cases hsub : v.xcr0 &&& xfrm = xfrm <;>
      by_cases ht : xfrm = SECS_XFRM_TEMPLATE <;>
      simp [EnclaveThreadState.validate_xfrm, h9, h18, hsub, ht]
  · intro m hm
    constructor
    · simp [EnclaveThreadState.enclave_enter, hm]
    · simp [EnclaveThreadState.enclave_resume, hm]

/-- Claim C8: an XFRM that is not a subset of XCR0 while OSXSAVE is enabled
makes both `enclave_enter` and `enclave_resume` return a validation error
carrying the vcpu state exactly as it was (no mutation before the
rejection). -/
theorem reject_no_mutation (v : Vcpu) (xfrm : Nat) (encIrq : Bool)
    (entry fs gs cssa hr pr hr2 pr2 : Nat) (ssa : StateSaveArea)
    (h9 : v.cr4.testBit 9 = true) (h18 : v.cr4.testBit 18 = true)
    (hsub : v.xcr0 &&& xfrm ≠ xfrm) :
    ∃ m,
      EnclaveThreadState.enclave_enter encIrq v entry fs gs xfrm cssa hr pr =
        .err m v ∧
      EnclaveThreadState.enclave_resume v xfrm hr2 pr2 ssa = .err m v := by
  have hm : EnclaveThreadState.validate_xfrm v xfrm =
      some "EnclaveThreadState::enclave_enter(): xfrm should be subset of XCR0 if CR4.OSXSAVE = 1" := by
    simp [EnclaveThreadState.validate_xfrm, h9, h18, hsub]
  refine ⟨"EnclaveThreadState::enclave_enter(): xfrm should be subset of XCR0 if CR4.OSXSAVE = 1",
    ?_, ?_⟩
  · simp [EnclaveThreadState.enclave_enter, hm]
  · simp [EnclaveThreadState.enclave_resume, hm]

/-- Claim C2: `enclave_aex` into an SSA followed by `enclave_resume` from
the same unmodified SSA reproduces the general-purpose register block, the
stack pointer, the flags register, and the instruction pointer that were
live at AEX time (assuming the resume-side XFRM validation passes). -/
theorem aex_resume_roundtrip (v : Vcpu) (aexe : AexException)
    (aep xfrm tcs hr2 pr2 : Nat) (ssa : StateSaveArea)
    (nw : EnclaveThreadState)
    (h9 : v.cr4.testBit 9 = true)
    (hx : (v.cr4.testBit 18 = true ∧ nw.xcr0 &&& xfrm = xfrm) ∨
          (v.cr4.testBit 18 = false ∧ xfrm = SECS_XFRM_TEMPLATE)) :
    ∃ v1 ssa1 v2,
      EnclaveThreadState.enclave_aex v aexe aep xfrm tcs ssa nw =
        .ok (v1, ssa1) ∧
      EnclaveThreadState.enclave_resume v1 xfrm hr2 pr2 ssa1 = .ok v2 ∧
      v2.regs = v.regs ∧ v2.stackPointer = v.stackPointer ∧
      v2.rflags = v.rflags ∧ v2.instrPointer = v.instrPointer := by
  refine ⟨_, _, _, rfl,
    enclave_resume_ok_shape _ xfrm hr2 pr2 _
      (validate_xfrm_of _ xfrm h9 hx) rfl, rfl, rfl, rfl, rfl⟩

/-- Sample live vcpu state for concrete instantiations: OSFXSR set, OSXSAVE
clear, syscall-enable set in EFER, interrupt flag set in RFLAGS. -/
def sampleVcpu : Vcpu :=
  { regs :=
      { rax := 1, rcx := 2, rdx := 3, rbx := 4, rbp := 5, rsi := 6,
        rdi := 7, r8 := 8, r9 := 9, r10 := 10, r11 := 11, r12 := 12,
        r13 := 13, r14 := 14, r15 := 15 }
    stackPointer := 1000
    instrPointer := 2000
    rflags := 582
    efer := 3329
    cr4 := 512
    xcr0 := 3
    fsBase := 111
    gsBase := 222
    hvPtRoot := 333
    ptRoot := 444
    idtrBase := 555
    idtrLimit := 100 }

/-- Sample vcpu with OSXSAVE also set and XCR0 = 3. -/
def sampleVcpuXsave : Vcpu :=
  { sampleVcpu with cr4 := 512 + 2 ^ 18 }

/-- Sample SSA content with distinctive user-level stack/frame pointers. -/
def sampleSsa : StateSaveArea :=
  { gpr :=
      { rax := 21, rcx := 22, rdx := 23, rbx := 24, rsp := 25,
        rbp := 26, rsi := 27, rdi := 28, r8 := 29, r9 := 30, r10 := 31,
        r11 := 32, r12 := 33, r13 := 34, r14 := 35, r15 := 36,
        rflags := 37, rip := 38, ursp := 7777, urbp := 8888,
        exit_info := 0, fs_base := 39, gs_base := 40 }
    misc := { maddr := 0, errcd := 0 }
    xsave := { sentinelOk := true } }

/-- Sample normal-world snapshot. -/
def sampleNw : EnclaveThreadState :=
  { rflags := 514, fs_base := 61, gs_base := 62, xcr0 := 7,
    hv_page_table_root := 63, page_table_root := 64, efer := 3329,
    idtr_base := 65, idtr_limit := 66 }

/-- Witness for C3 at a concrete input: with OSXSAVE clear a request of 5
is rejected, and enter and resume fail identically without mutation. -/
theorem validate_xfrm_rule_witness :
    EnclaveThreadState.enclave_enter false sampleVcpu 1 2 3 5 4 6 7 =
      .err "EnclaveThreadState::enclave_enter(): xfrm != 3 when CR4.OSXSAVE != 0"
        sampleVcpu ∧
    EnclaveThreadState.enclave_resume sampleVcpu 5 8 9 sampleSsa =
      .err "EnclaveThreadState::enclave_enter(): xfrm != 3 when CR4.OSXSAVE != 0"
        sampleVcpu :=
  (validate_xfrm_rule sampleVcpu 5 false 1 2 3 4 6 7 8 9 sampleSsa).2 _ rfl

/-- Witness for C8 at a concrete input: XCR0 = 3 and a request of 4 with
OSXSAVE enabled is rejected by both paths with the state unchanged. -/
theorem reject_no_mutation_witness :
    ∃ m,
      EnclaveThreadState.enclave_enter true sampleVcpuXsave 1 2 3 4 5 6 7 =
        .err m sampleVcpuXsave ∧
      EnclaveThreadState.enclave_resume sampleVcpuXsave 4 8 9 sampleSsa =
        .err m sampleVcpuXsave :=
  reject_no_mutation sampleVcpuXsave 4 true 1 2 3 5 6 7 8 9 sampleSsa
    (by decide) (by decide) (by decide)

/-- Witness for C2 at concrete inputs. -/
theorem aex_resume_roundtrip_witness :
    ∃ v1 ssa1 v2,
      EnclaveThreadState.enclave_aex sampleVcpu
          { vec := 14, misc := some { maddr := 5000, errcd := 2 } }
          4000 3 6000 sampleSsa sampleNw = .ok (v1, ssa1) ∧
      EnclaveThreadState.enclave_resume v1 3 70 80 ssa1 = .ok v2 ∧
      v2.regs = sampleVcpu.regs ∧
      v2.stackPointer = sampleVcpu.stackPointer ∧
      v2.rflags = sampleVcpu.rflags ∧
      v2.instrPointer = sampleVcpu.instrPointer :=
  aex_resume_roundtrip sampleVcpu
    { vec := 14, misc := some { maddr := 5000, errcd := 2 } }
    4000 3 6000 70 80 sampleSsa sampleNw (by decide) (Or.inr (by decide))

/-- Claim C7: after `enclave_aex` the live register block is the zeroed
default except the three hand-off registers (resume-request opcode, TCS
virtual address, async-exit pointer) plus the restored user frame pointer,
and the live stack pointer is the user-level stack pointer stored in the
SSA general-register record rather than the fault-time stack pointer
(which is saved into the SSA rsp slot instead). -/
theorem aex_scrub_and_handoff (v : Vcpu) (aexe : AexException)
    (aep xfrm tcs : Nat) (ssa : StateSaveArea) (nw : EnclaveThreadState) :
    ∃ v1 ssa1,
      EnclaveThreadState.enclave_aex v aexe aep xfrm tcs ssa nw =
        .ok (v1, ssa1) ∧
      v1.regs = { GuestRegisters.default with
        rax := HyperCallCode.EnclaveResume, rbx := tcs, rcx := aep,
        rbp := ssa.gpr.urbp } ∧
      v1.stackPointer = ssa.gpr.ursp ∧
      ssa1.gpr.ursp = ssa.gpr.ursp ∧ ssa1.gpr.urbp = ssa.gpr.urbp ∧
      ssa1.gpr.rsp = v.stackPointer :=
  ⟨_, _, rfl, rfl, rfl, rfl, rfl, rfl⟩

/-- Claim C6, evaluated at the failing input: with prior guest EFER 0x500
(SCE already clear), a successful `enclave_enter` stores EFER 0x4FF — the
u64 subtraction of the SCE bit borrows through the register instead of
leaving it unchanged, so the stored value is not the prior EFER with SCE
cleared; the flags forcing and the argument registers do follow the claim
at this input. -/
theorem enclave_enter_efer_bug :
    ∃ v1,
      EnclaveThreadState.enclave_enter false { sampleVcpu with efer := 1280 }
        4000 50 60 3 2 700 800 = .ok v1 ∧
      v1.efer = 1279 ∧
      ¬ v1.efer = 1280 &&& (mask64 ^^^ 1) ∧
      v1.rflags = sampleVcpu.rflags &&& (mask64 ^^^ 2 ^ 9) ∧
      v1.regs.rax = 2 ∧ v1.regs.rcx = sampleVcpu.instrPointer :=
  ⟨_, rfl, by decide, by decide, by decide, by decide, by decide⟩

/-- C4 counterexample: a feature descriptor whose component 3 starts below
the running end of component 2 but reaches past it. The source loop skips
component 3 (its offset is below offset+size), computes 3500+200 = 3700 and
accepts a one-page declared frame, although the claim's
max-of-(offset+size) minimum is 4100+200 = 4300, larger than both the
declared size (4096) and the ceiling — the claim demands rejection here. -/
theorem secs_validate_counterexample :
    SgxSecs.validate
        { xcr0_supported_bits := 15
          xsave_state_info := fun l =>
            if l = 2 then (3000, 500)
            else if l = 3 then (2000, 2100)
            else (0, 0) }
        { size := 4096, ms_buf_size := 4096, xfrm := 15,
          ssa_frame_size := 1 } = none ∧
    1 * PAGE_SIZE <
      ssaFrameSizeNeededClaim
        { xcr0_supported_bits := 15
          xsave_state_info := fun l =>
            if l = 2 then (3000, 500)
            else if l = 3 then (2000, 2100)
            else (0, 0) } 15 ∧
    SSA_FRAME_SIZE <
      ssaFrameSizeNeededClaim
        { xcr0_supported_bits := 15
          xsave_state_info := fun l =>
            if l = 2 then (3000, 500)
            else if l = 3 then (2000, 2100)
            else (0, 0) } 15 := by
  refine ⟨by decide, by decide, by decide⟩

/-- Claim C4 (amended): `SgxSecs::validate` computes the minimum save-area
frame size by scanning the bits 2..=63 of the requested XFRM in increasing
order and updating the running (offset, size) pair only when a component's
offset is at least the running offset + size (the Intel SDM layout fold,
which agrees with the max-of-(offset+size) reading only for non-overlapping
ascending layouts); given that the earlier shape checks pass, it accepts
iff this computed minimum fits both the caller-declared frame size and the
build-time ceiling SSA_FRAME_SIZE. -/
theorem secs_validate_frame_size (cpuid : CpuFeatures) (secs : SgxSecs)
    (h1 : PAGE_SIZE ≤ secs.size) (h2 : isPowerOfTwoB secs.size = true)
    (h3 : secs.ms_buf_size ≠ 0) (h4 : is_aligned secs.ms_buf_size = true)
    (h5 : secs.xfrm &&& SECS_XFRM_TEMPLATE = SECS_XFRM_TEMPLATE)
    (h6 : secs.xfrm &&& cpuid.xcr0_supported_bits = secs.xfrm) :
    SgxSecs.validate cpuid secs = none ↔
      (ssaFrameSizeNeeded cpuid secs.xfrm ≤ secs.ssa_frame_size * PAGE_SIZE ∧
       ssaFrameSizeNeeded cpuid secs.xfrm ≤ SSA_FRAME_SIZE) := by
  simp [SgxSecs.validate, Nat.not_lt.mpr h1, h2, h3, h4, h5, h6, Nat.not_lt]
  split_ifs with hA hB <;> simp <;> omega

/-- Witness for C4 at a concrete input: the minimal legacy descriptor is
accepted with a one-page frame. -/
theorem secs_validate_frame_size_witness :
    (SgxSecs.validate
        { xcr0_supported_bits := 3, xsave_state_info := fun _ => (0, 0) }
        { size := 4096, ms_buf_size := 4096, xfrm := 3,
          ssa_frame_size := 1 } = none ↔
      (ssaFrameSizeNeeded
          { xcr0_supported_bits := 3, xsave_state_info := fun _ => (0, 0) }
          3 ≤ 1 * PAGE_SIZE ∧
       ssaFrameSizeNeeded
          { xcr0_supported_bits := 3, xsave_state_info := fun _ => (0, 0) }
          3 ≤ SSA_FRAME_SIZE)) :=
  secs_validate_frame_size
    { xcr0_supported_bits := 3, xsave_state_info := fun _ => (0, 0) }
    { size := 4096, ms_buf_size := 4096, xfrm := 3, ssa_frame_size := 1 }
    (by decide) (by decide) (by decide) (by decide) (by decide) (by decide)
